import Mathlib

/-!
Verification of `OlgaLalakulich_pipeline_analysis.py` (pipeline inspection:
overlap detection between rectangular boxes on a cylindrical pipe surface).

The embedding uses ℚ for the real-valued coordinates (longitudinal meters,
circumferential degrees).  Python's `%` on floats with a positive modulus
satisfies `a % b = a - b * floor (a / b)`, which `pymod` reproduces on ℚ.
A Python `set` of name tuples is modelled as a duplicate-free list built by
`setInsert` (insertion is a no-op on a present element); set-level statements
are phrased through membership.
-/

section PipelineInspection

attribute [local semireducible] Rat.add Rat.sub Rat.mul Rat.inv Rat.ofScientific

/-- Python's `%` for a positive right operand: `a - b * ⌊a / b⌋`. -/
def pymod (a b : ℚ) : ℚ := a - b * ⌊a / b⌋

/-- The `Rect` record: fields stored by `Rect.__init__` (the `id` counter and
auto-naming are irrelevant to geometry; `name` is taken as given). -/
structure Rect where
  name : String
  L : ℚ
  R : ℚ
  B : ℚ
  width : ℚ
  midangle : ℚ
deriving DecidableEq, Repr

/-- The field assignments of `Rect.__init__`:
`R = L + length`, `midangle = (B + width/2) % 360`. -/
def mkRect (L length B width : ℚ) (name : String) : Rect :=
  { name := name, L := L, R := L + length, B := B, width := width,
    midangle := pymod (B + width / 2) 360 }

/-- The constructor `Rect.__init__` including its `assert` guards, as a
fallible function: `assert 0<=B<=360`, `assert length>0`,
`assert 0<=width<=360`. -/
def Rect.make (L length B width : ℚ) (name : String) : Option Rect :=
  if (0 ≤ B ∧ B ≤ 360) ∧ 0 < length ∧ (0 ≤ width ∧ width ≤ 360) then
    some (mkRect L length B width name)
  else none

/-- Method `Rect.to_the_left_of`: `self.R <= another.L`. -/
def Rect.to_the_left_of (self another : Rect) : Bool :=
  decide (self.R ≤ another.L)

/-- Method `Rect.to_the_right_of`: `self.L >= another.R`. -/
def Rect.to_the_right_of (self another : Rect) : Bool :=
  decide (self.L ≥ another.R)

/-- Method `Rect.overlap_along_circumferential`:
`dist_midangles = abs((self.midangle - another.midangle + 180.) % 360 - 180)`;
overlap iff `dist_midangles < (self.width + another.width)/2`. -/
def Rect.overlap_along_circumferential (self another : Rect) : Bool :=
  decide (|pymod (self.midangle - another.midangle + 180) 360 - 180|
            < (self.width + another.width) / 2)

/-- Method `Rect.overlap_with`:
`not left_of and not right_of and overlap_along_circumferential`. -/
def Rect.overlap_with (self another : Rect) : Bool :=
  !self.to_the_left_of another && !self.to_the_right_of another
    && self.overlap_along_circumferential another

/-- Both boxes' longitudinal intervals intersect (neither is fully to one
side of the other); this is what the sweep's queue is meant to track. -/
def longitudinalIntersect (a b : Rect) : Bool :=
  !a.to_the_left_of b && !a.to_the_right_of b

/-- Python `set.add`: a no-op when the element is already present. -/
def setInsert (p : String × String) (l : List (String × String)) :
    List (String × String) :=
  if p ∈ l then l else l ++ [p]

/-- Function `greedy_overlap_between_two`: nested loops over `old` then
`new`, inserting `(rect.name, another.name)` into the set on full overlap. -/
def greedy_overlap_between_two (old new : List Rect) :
    List (String × String) :=
  old.foldl
    (fun s rect =>
      new.foldl
        (fun s another =>
          if rect.overlap_with another then
            setInsert (rect.name, another.name) s
          else s)
        s)
    []

/-- The eviction loop of `overlap_between_two`:
`while q2: if q2[0].to_the_left_of(rect): q2.popleft() else: break`. -/
def evictQueue (rect : Rect) : List Rect → List Rect
  | [] => []
  | e :: q => if e.to_the_left_of rect then evictQueue rect q else e :: q

/-- The admission loop of `overlap_between_two`: pop candidates off the
prepared stack (ascending left edge); discard those left of `rect`, stop at
the first one right of `rect`, append the others to the queue's rear.
Returns the grown queue and the remaining stack. -/
def admitQueue (rect : Rect) : List Rect → List Rect → List Rect × List Rect
  | q2, [] => (q2, [])
  | q2, e :: rest =>
    if e.to_the_left_of rect then admitQueue rect q2 rest
    else if e.to_the_right_of rect then (q2, e :: rest)
    else admitQueue rect (q2 ++ [e]) rest

/-- Step (c) of `overlap_between_two`: test `rect` circumferentially against
every queue member, recording `(rect.name, elem.name)` on success. -/
def scanQueue (rect : Rect) (q2 : List Rect)
    (s : List (String × String)) : List (String × String) :=
  q2.foldl
    (fun s elem =>
      if rect.overlap_along_circumferential elem then
        setInsert (rect.name, elem.name) s
      else s)
    s

/-- Sweep state: candidate queue (front at head), remaining new-box stack
(next candidate at head, ascending left edge), accumulated result set. -/
structure SweepState where
  q2 : List Rect
  stack : List Rect
  overlap_set : List (String × String)

/-- One iteration of the `for rect in list1` loop of `overlap_between_two`:
evict, admit, then scan the queue. -/
def sweepStep (st : SweepState) (rect : Rect) : SweepState :=
  let q := evictQueue rect st.q2
  let p := admitQueue rect q st.stack
  { q2 := p.1, stack := p.2,
    overlap_set := scanQueue rect p.1 st.overlap_set }

/-- Python's stable `sorted(l, key=lambda elem: elem.L)`, as a stable
insertion sort. -/
def sortByLeft (l : List Rect) : List Rect :=
  l.insertionSort (fun a b => a.L ≤ b.L)

/-- Python's stable `sorted(l, key=lambda elem: elem.L, reverse=True)`. -/
def sortByLeftDesc (l : List Rect) : List Rect :=
  l.insertionSort (fun a b => b.L ≤ a.L)

/-- Python's stable `sorted(l, key=lambda elem: elem.R)`. -/
def sortByRight (l : List Rect) : List Rect :=
  l.insertionSort (fun a b => a.R ≤ b.R)

/-- The initial stack of `overlap_between_two`: `new` sorted descending by
left edge (stably, with `reverse=True`), popped from the end — modelled by
reversing so pops happen at the head. -/
def sweepStack (new : List Rect) : List Rect :=
  (sortByLeftDesc new).reverse

/-- Function `overlap_between_two` (its `visualize` branch only draws; it
never touches `overlap_set`, so it is omitted): sort `old` ascending by left
edge, then sweep. -/
def overlap_between_two (old new : List Rect) : List (String × String) :=
  ((sortByLeft old).foldl sweepStep ⟨[], sweepStack new, []⟩).overlap_set

/-- The queue of `overlap_between_two` exactly when old box number `i`
(0-based, in sorted order) reaches step (c): eviction and admission for that
box have run, the circumferential scan has not. -/
def queueAtStepC (old new : List Rect) (i : ℕ) : List Rect :=
  let list1 := sortByLeft old
  let st := (list1.take i).foldl sweepStep ⟨[], sweepStack new, []⟩
  match list1.get? i with
  | some rect => (admitQueue rect (evictQueue rect st.q2) st.stack).1
  | none => []

/-- Call `bisect.bisect_left(l, x)` on a sorted list: the number of elements
strictly below `x`. -/
def bisect_left (l : List ℚ) (x : ℚ) : ℕ :=
  (l.takeWhile (fun y => decide (y < x))).length

/-- Call `bisect.bisect_right(l, x)` on a sorted list: the number of
elements at or below `x`. -/
def bisect_right (l : List ℚ) (x : ℚ) : ℕ :=
  (l.takeWhile (fun y => decide (y ≤ x))).length

/-- Function `overlap_between_two_left_right`: sort `old` by left and by
right edge, binary-search both edge lists for each new box, intersect the
two slices, then test the candidates circumferentially.  Pairs are recorded
as `(rect.name, elem.name)` with `rect` drawn from `new`. -/
def overlap_between_two_left_right (old new : List Rect) :
    List (String × String) :=
  let old_left := sortByLeft old
  let left_edges := old_left.map (fun j => j.L)
  let old_right := sortByRight old
  let right_edges := old_right.map (fun j => j.R)
  new.foldl
    (fun s rect =>
      let il := bisect_left left_edges rect.R
      let ir := bisect_right right_edges rect.L
      let candidates :=
        (old_left.take il).filter (fun e => decide (e ∈ old_right.drop ir))
      candidates.foldl
        (fun s elem =>
          if rect.overlap_along_circumferential elem then
            setInsert (rect.name, elem.name) s
          else s)
        s)
    []

/-- Two pair lists describe the same set of name pairs. -/
def SamePairSet (l1 l2 : List (String × String)) : Prop :=
  ∀ p, p ∈ l1 ↔ p ∈ l2

/-! Concrete boxes from the repository's doctest scenario. -/

def re1 : Rect := mkRect 0 25 5 25 "re1"

def re2 : Rect := mkRect 5 20 0 10 "re2"

def re3 : Rect := mkRect 10 10 30 10 "re3"

def re4 : Rect := mkRect 15 9 40 20 "re4"

def re5 : Rect := mkRect 20 10 340 30 "re5"

def re6 : Rect := mkRect 25 9 0 10 "re6"

def scenOld : List Rect := [re5, re3, re1]

def scenNew : List Rect := [re4, re6, re2]

/-! Boxes exhibiting the stale-queue defect of `overlap_between_two`:
`nBug2` is admitted to the queue behind the long box `nBug1` and is never
evicted, because eviction stops at the first queue element that is not left
of the current old box. -/

def oBug1 : Rect := mkRect 0 3 0 90 "o1"

def oBug2 : Rect := mkRect 50 1 0 90 "o2"

def nBug1 : Rect := mkRect 0 100 0 90 "n1"

def nBug2 : Rect := mkRect 1 1 0 90 "n2"

def bugOld : List Rect := [oBug1, oBug2]

def bugNew : List Rect := [nBug1, nBug2]

/-! ### Arithmetic facts about `pymod` with modulus 360 -/

lemma pymod_nonneg (a : ℚ) : 0 ≤ pymod a 360 := by
  have h := Int.floor_le (a / 360)
  have h2 : (360 : ℚ) * (⌊a / 360⌋ : ℚ) ≤ 360 * (a / 360) :=
    mul_le_mul_of_nonneg_left h (by norm_num)
  have h3 : (360 : ℚ) * (a / 360) = a := by ring
  unfold pymod
  linarith

lemma pymod_lt (a : ℚ) : pymod a 360 < 360 := by
  have h := Int.lt_floor_add_one (a / 360)
  have h2 : (360 : ℚ) * (a / 360) < 360 * ((⌊a / 360⌋ : ℚ) + 1) := by
    have := mul_lt_mul_of_pos_left h (show (0 : ℚ) < 360 by norm_num)
    linarith
  have h3 : (360 : ℚ) * (a / 360) = a := by ring
  unfold pymod
  linarith

lemma pymod_eq_self {x : ℚ} (h1 : 0 ≤ x) (h2 : x < 360) : pymod x 360 = x := by
  have hf : ⌊x / 360⌋ = 0 := by
    rw [Int.floor_eq_zero_iff]
    constructor
    · positivity
    · rw [div_lt_one (by norm_num : (0:ℚ) < 360)]
      exact h2
  unfold pymod
  rw [hf]
  push_cast
  ring

lemma pymod_int_mul_add (k : ℤ) (x : ℚ) :
    pymod (360 * (k : ℚ) + x) 360 = pymod x 360 := by
  have hdiv : (360 * (k : ℚ) + x) / 360 = x / 360 + (k : ℚ) := by
    field_simp
    ring
  unfold pymod
  rw [hdiv, Int.floor_add_int]
  push_cast
  ring

lemma dist_mid_symm (x : ℚ) :
    |pymod (x + 180) 360 - 180| = |pymod (-x + 180) 360 - 180| := by
  have hr0 := pymod_nonneg (x + 180)
  have hr1 := pymod_lt (x + 180)
  have hkey : -x + 180 = 360 * ((1 - ⌊(x + 180) / 360⌋ : ℤ) : ℚ)
      + -(pymod (x + 180) 360) := by
    unfold pymod
    push_cast
    ring
  have hrw : pymod (-x + 180) 360 = pymod (-(pymod (x + 180) 360)) 360 := by
    rw [hkey, pymod_int_mul_add]
  rcases eq_or_lt_of_le hr0 with h0 | h0
  · rw [hrw, ← h0, neg_zero, pymod_eq_self le_rfl (by norm_num)]
  · have hneg : -(pymod (x + 180) 360) =
        360 * ((-1 : ℤ) : ℚ) + (360 - pymod (x + 180) 360) := by
      push_cast
      ring
    have : pymod (-(pymod (x + 180) 360)) 360 = 360 - pymod (x + 180) 360 := by
      rw [hneg, pymod_int_mul_add, pymod_eq_self (by linarith) (by linarith)]
    rw [hrw, this]
    rw [show (360 : ℚ) - pymod (x + 180) 360 - 180 = -(pymod (x + 180) 360 - 180)
      by ring, abs_neg]

/-! ### Claim theorems -/

/-- C3: `overlap_with` is the conjunction of not-left-of, not-right-of and the
circumferential test; the circumferential distance
`abs(((midangle difference) + 180) mod 360 - 180)` always lies in `[0, 180]`,
and the test succeeds exactly when it is strictly below the sum of the
half-widths. -/
theorem overlap_with_characterization (a b : Rect) :
    (a.overlap_with b = true ↔
        (a.to_the_left_of b = false ∧ a.to_the_right_of b = false ∧
          |pymod (a.midangle - b.midangle + 180) 360 - 180|
            < (a.width + b.width) / 2))
      ∧ 0 ≤ |pymod (a.midangle - b.midangle + 180) 360 - 180|
      ∧ |pymod (a.midangle - b.midangle + 180) 360 - 180| ≤ 180 := by
  refine ⟨?_, abs_nonneg _, ?_⟩
  · simp [Rect.overlap_with, Rect.to_the_left_of, Rect.to_the_right_of,
      Rect.overlap_along_circumferential, and_assoc]
  · have h0 := pymod_nonneg (a.midangle - b.midangle + 180)
    have h1 := pymod_lt (a.midangle - b.midangle + 180)
    rw [abs_le]
    constructor <;> linarith

/-- C6: the full overlap predicate is symmetric. -/
theorem overlap_with_symm (a b : Rect) :
    a.overlap_with b = b.overlap_with a := by
  have hcirc : a.overlap_along_circumferential b
      = b.overlap_along_circumferential a := by
    unfold Rect.overlap_along_circumferential
    rw [decide_eq_decide]
    have h := dist_mid_symm (a.midangle - b.midangle)
    rw [show -(a.midangle - b.midangle) = b.midangle - a.midangle by ring] at h
    rw [h, add_comm b.width a.width]
  unfold Rect.overlap_with Rect.to_the_left_of Rect.to_the_right_of
  rw [hcirc]
  rw [show decide (a.L ≥ b.R) = decide (b.R ≤ a.L) from decide_eq_decide.mpr Iff.rfl]
  rw [show decide (b.L ≥ a.R) = decide (a.R ≤ b.L) from decide_eq_decide.mpr Iff.rfl]
  generalize decide (a.R ≤ b.L) = p
  generalize decide (b.R ≤ a.L) = q
  cases p <;> cases q <;> rfl

/-- C7: the boxes at bottom angle 350 with width 20 (wrapping through 0°,
mid-angle 0) and at bottom angle 5 with width 10 (mid-angle 10) overlap
circumferentially: their shortest-arc mid-angle distance is 10, strictly
below the half-width sum 15. -/
theorem wraparound_circumferential_overlap :
    (mkRect 0 1 350 20 "a").overlap_along_circumferential
        (mkRect 0 1 5 10 "b") = true
      ∧ (mkRect 0 1 350 20 "a").midangle = 0
      ∧ (mkRect 0 1 5 10 "b").midangle = 10
      ∧ |pymod ((0 : ℚ) - 10 + 180) 360 - 180| = 10
      ∧ ((mkRect 0 1 350 20 "a").width + (mkRect 0 1 5 10 "b").width) / 2
          = 15 := by
  decide

/-- C8: two boxes sharing exactly a longitudinal edge (`a.R = b.L`) never
overlap, in either direction, regardless of circumferential placement. -/
theorem touching_edges_no_overlap (a b : Rect) (h : a.R = b.L) :
    a.overlap_with b = false ∧ b.overlap_with a = false := by
  constructor
  · simp [Rect.overlap_with, Rect.to_the_left_of, h]
  · simp [Rect.overlap_with, Rect.to_the_right_of, h]

/-- Witness for C8 at concrete boxes `[0,1] × [0°,90°]` and `[1,2] × [0°,90°]`. -/
theorem touching_edges_no_overlap_witness :
    (mkRect 0 1 0 90 "a").R = (mkRect 1 1 0 90 "b").L
      ∧ ((mkRect 0 1 0 90 "a").overlap_with (mkRect 1 1 0 90 "b") = false
          ∧ (mkRect 1 1 0 90 "b").overlap_with (mkRect 0 1 0 90 "a") = false) :=
  ⟨by decide, touching_edges_no_overlap _ _ (by decide)⟩

/-- C9: every box with positive length and positive width overlaps itself. -/
theorem overlap_with_self (a : Rect) (hlen : a.L < a.R) (hw : 0 < a.width) :
    a.overlap_with a = true := by
  have h1 : ¬ (a.R ≤ a.L) := not_le.mpr hlen
  have h2 : a.midangle - a.midangle + 180 = (180 : ℚ) := by ring
  have h3 : pymod (180 : ℚ) 360 = 180 := pymod_eq_self (by norm_num) (by norm_num)
  simp only [Rect.overlap_with, Rect.to_the_left_of, Rect.to_the_right_of,
    Rect.overlap_along_circumferential, h2, h3, ge_iff_le]
  simp [h1]
  linarith

/-- Witness for C9 at the concrete box `[0,1] × [0°,90°]`. -/
theorem overlap_with_self_witness :
    ((mkRect 0 1 0 90 "a").L < (mkRect 0 1 0 90 "a").R
        ∧ 0 < (mkRect 0 1 0 90 "a").width)
      ∧ (mkRect 0 1 0 90 "a").overlap_with (mkRect 0 1 0 90 "a") = true :=
  ⟨⟨by decide, by decide⟩, overlap_with_self _ (by decide) (by decide)⟩

/-- C4 (counterexample): the constructor accepts `bottomAngle = 360` (outside
`[0, 360)`) and `width = 0` (outside `(0, 360]`), contradicting the claim
that construction fails there. -/
theorem make_accepts_boundary_values :
    (Rect.make 0 1 360 10 "x").isSome = true
      ∧ (Rect.make 0 1 0 0 "y").isSome = true := by
  decide

/-- C4 (amended): construction fails exactly when `length ≤ 0`, or `B`
outside `[0, 360]`, or `width` outside `[0, 360]` (both boundary values of
the closed intervals are accepted). -/
theorem make_fails_iff (L length B width : ℚ) (n : String) :
    Rect.make L length B width n = none ↔
      (length ≤ 0 ∨ B < 0 ∨ 360 < B ∨ width < 0 ∨ 360 < width) := by
  rw [Rect.make]
  split_ifs with h
  · obtain ⟨⟨hB0, hB1⟩, hlen, hw0, hw1⟩ := h
    simp only [reduceCtorEq, false_iff]
    intro hr
    rcases hr with h' | h' | h' | h' | h' <;> linarith
  · simp only [true_iff]
    simp only [not_and_or, not_le, not_lt] at h
    rcases h with (h' | h') | h' | (h' | h')
    · exact Or.inr (Or.inl h')
    · exact Or.inr (Or.inr (Or.inl h'))
    · exact Or.inl h'
    · exact Or.inr (Or.inr (Or.inr (Or.inl h')))
    · exact Or.inr (Or.inr (Or.inr (Or.inr h')))

/-- C5 (counterexample): on the reference scenario,
`overlap_between_two_left_right` does not contain the claimed `(old, new)`
pair `("re1", "re2")` — it records pairs in `(new, old)` order. -/
theorem scenario_left_right_missing_pair :
    ("re1", "re2") ∉ overlap_between_two_left_right scenOld scenNew := by
  decide

/-- C5 (amended): on the reference scenario, `greedy_overlap_between_two`
and `overlap_between_two` yield exactly the `(old, new)` pairs
`{(re1,re2), (re5,re6), (re5,re2)}`, while `overlap_between_two_left_right`
yields exactly the reversed `(new, old)` pairs
`{(re2,re1), (re6,re5), (re2,re5)}`. -/
theorem scenario_matcher_results :
    SamePairSet (greedy_overlap_between_two scenOld scenNew)
        [("re1", "re2"), ("re5", "re6"), ("re5", "re2")]
      ∧ SamePairSet (overlap_between_two scenOld scenNew)
        [("re1", "re2"), ("re5", "re6"), ("re5", "re2")]
      ∧ SamePairSet (overlap_between_two_left_right scenOld scenNew)
        [("re2", "re1"), ("re6", "re5"), ("re2", "re5")] := by
  have h1 : greedy_overlap_between_two scenOld scenNew
      = [("re5", "re6"), ("re5", "re2"), ("re1", "re2")] := by decide
  have h2 : overlap_between_two scenOld scenNew
      = [("re1", "re2"), ("re5", "re2"), ("re5", "re6")] := by decide
  have h3 : overlap_between_two_left_right scenOld scenNew
      = [("re6", "re5"), ("re2", "re1"), ("re2", "re5")] := by decide
  refine ⟨?_, ?_, ?_⟩ <;> intro p
  · rw [h1]
    simp only [List.mem_cons, List.not_mem_nil, or_false]
    tauto
  · rw [h2]
    simp only [List.mem_cons, List.not_mem_nil, or_false]
    tauto
  · rw [h3]
    simp only [List.mem_cons, List.not_mem_nil, or_false]
    tauto

/-- C1 (code defect): on `bugOld = [o1 = [0,3], o2 = [50,51]]` and
`bugNew = [n1 = [0,100], n2 = [1,2]]` (all with the same angular extent),
the sweep matcher reports the pair `("o2", "n2")` although those two boxes
do not overlap (`n2` is entirely to the left of `o2`), while the greedy
matcher does not report it: the three matchers do not return identical
result sets. -/
theorem sweep_reports_nonoverlapping_pair :
    ("o2", "n2") ∈ overlap_between_two bugOld bugNew
      ∧ ("o2", "n2") ∉ greedy_overlap_between_two bugOld bugNew
      ∧ oBug2.name = "o2" ∧ nBug2.name = "n2"
      ∧ oBug2.overlap_with nBug2 = false := by
  decide

/-- C2 (code defect): when the sweep reaches step (c) for the second sorted
old box `o2 = [50,51]`, the queue still contains `n2 = [1,2]`, whose
longitudinal interval does not intersect that of `o2` (it was admitted for
`o1` and hides behind the long box `n1`, so front-only eviction never
removes it): the queue does not contain exactly the longitudinally
intersecting new boxes. -/
theorem sweep_queue_invariant_violated :
    nBug2 ∈ queueAtStepC bugOld bugNew 1
      ∧ (sortByLeft bugOld).get? 1 = some oBug2
      ∧ longitudinalIntersect oBug2 nBug2 = false
      ∧ nBug2.to_the_left_of oBug2 = true := by
  decide

end PipelineInspection
